import Mathlib

/-!
Verification development for the YOLOv5 PyQt detection application.

The definitions below are a shallow embedding of the repository's core:
`src/core/detector.py` (class `YOLODetector`) and the video-loop /
resource-lifecycle logic of `src/gui/main_windows.py` (class `MainWindow`).

Modelling conventions:
* numpy image arrays are modelled by `Frame`: a pixel grid (`rows`), plus
  the box and text annotations drawn onto the array by `plot_one_box` /
  `cv2.putText` (drawing is recorded as overlay data rather than pixel
  mutation; the pixel grid of a buffer is changed by no modelled call).
* Python's reference/aliasing semantics for arrays is modelled by a
  `Store` (list of buffers) indexed by buffer ids; `img.copy()` appends a
  fresh buffer, in-place drawing replaces one slot.
* the neural network forward pass, `non_max_suppression` and `scale_boxes`
  come from the external ultralytics packages (`models.*`, `utils.*`),
  which are not part of this repository; they enter the model as oracle
  parameters (`inf`, `sf`), exactly like the spec's external inference
  capability.
* `random.randint(0, 255)` draws are modelled by a stream `rng : Nat → Nat`
  consumed position by position (`% 256` gives the inclusive 0..255 range).
* wall-clock times (`time.time()`) and float arithmetic on them are
  modelled over `Rat`.
-/

namespace Yolo

/-- One detection row after non-maximum suppression and rescaling:
corner-format box, confidence, class id (`*xyxy, conf, cls` in the source). -/
structure Det where
  x1 : Int
  y1 : Int
  x2 : Int
  y2 : Int
  conf : Rat
  cls : Nat
deriving DecidableEq

/-- One labeled rectangle drawn by `plot_one_box` (detector.py lines 158-164):
the box, its label text, its display color and line thickness. -/
structure BoxAnno where
  box : Det
  label : String
  color : List Nat
  thickness : Nat
deriving DecidableEq

/-- A numpy image buffer: pixel rows plus the annotations drawn onto it. -/
structure Frame where
  rows : List (List Nat)
  boxes : List BoxAnno
  texts : List String
deriving DecidableEq

/-- `frame.shape[0]` — number of pixel rows. -/
def Frame.height (f : Frame) : Nat := f.rows.length

/-- `frame.shape[1]` — number of pixel columns. -/
def Frame.width (f : Frame) : Nat := (f.rows.headD []).length

/-- `cv2.rotate(frame, cv2.ROTATE_90_COUNTERCLOCKWISE)`:
result row `i`, column `j` holds source row `j`, column `w-1-i`. -/
def rotate90CCW (f : Frame) : Frame :=
  { rows := (List.range f.width).reverse.map (fun j => f.rows.map (fun row => row.getD j 0))
    boxes := f.boxes
    texts := f.texts }

/-- A heap of numpy buffers; a Python array reference is an index into it. -/
abbrev Store := List Frame

/-- Default buffer used for out-of-range store reads. -/
def emptyFrame : Frame := { rows := [], boxes := [], texts := [] }

/-- The detector state of `YOLODetector.__init__` / `initialize`
(detector.py lines 19-33): the fields the claims observe. -/
structure YOLODetector where
  initialized : Bool
  names : List String
  colors : List (List Nat)
  conf_thres : Rat
  iou_thres : Rat
  line_thickness : Nat
deriving DecidableEq

/-- Result of the external `attempt_load` capability: the loaded network's
class-name list (detector.py lines 58-71). -/
structure LoadedModel where
  names : List String
deriving DecidableEq

/-- One color `[random.randint(0, 255) for _ in range(3)]` for class `i`,
drawn from the RNG stream (three consecutive draws per class). -/
def randColor (rng : Nat → Nat) (i : Nat) : List Nat :=
  [rng (3 * i) % 256, rng (3 * i + 1) % 256, rng (3 * i + 2) % 256]

/-- `self.colors = [[random.randint(0, 255) for _ in range(3)] for _ in self.names]`
(detector.py line 72): one randomly drawn color per class name. -/
def initColors (rng : Nat → Nat) (n : Nat) : List (List Nat) :=
  (List.range n).map (randColor rng)

/-- `YOLODetector.initialize` (detector.py lines 35-80).  `load = none` models
the try/except catching a failure of the external loading capability: the
method prints the error and returns `False`, leaving `initialized` unset.
On success it stores the class names, assigns one random color per class and
sets `initialized = True`, returning `True`.  (The Lean keyword rules out
the source's exact method name, hence the `Detector` suffix.) -/
def YOLODetector.initializeDetector (d : YOLODetector) (load : Option LoadedModel)
    (rng : Nat → Nat) : YOLODetector × Bool :=
  match load with
  | none => (d, false)
  | some m =>
      ({ d with names := m.names
                colors := initColors rng m.names.length
                initialized := true },
       true)

/-- The tensor handed to the inference capability, tagged with the source
frame's dimensions.  `preprocess_image` (detector.py lines 82-108) letterboxes,
reorders and normalizes the frame; every step (`letterbox`, `ascontiguousarray`,
`.float()`) allocates fresh buffers, so it reads the input buffer and mutates
nothing — the model only keeps what the downstream external `scale_boxes`
call conceptually depends on. -/
structure PreparedTensor where
  srcH : Nat
  srcW : Nat
deriving DecidableEq

/-- `self.preprocess_image(img)` viewed through the store model: a pure read
of the input frame producing a fresh tensor. -/
def preprocess_image (f : Frame) : PreparedTensor := ⟨f.height, f.width⟩

/-- `det[:, :4] = scale_boxes(...).round()` applied to one row: the external
rescale `sf` maps the four box coordinates; confidence and class survive. -/
def scaleDet (sf : Int → Int → Int → Int → Int × Int × Int × Int) (r : Det) : Det :=
  match sf r.x1 r.y1 r.x2 r.y2 with
  | (a, b, c, e) => { r with x1 := a, y1 := b, x2 := c, y2 := e }

/-- Reading the label color for the annotation of one row
(detector.py lines 152-164): class name looked up in `self.names`, label
text `f'{class_name} {conf:.2f}'`, color `self.colors[int(cls)]`. -/
def conf2str (q : Rat) : String :=
  (toString ((q * 100 + 1 / 2).floor / 100)) ++ "." ++
    (if (q * 100 + 1 / 2).floor % 100 < 10 then "0" else "") ++
    toString ((q * 100 + 1 / 2).floor % 100)

/-- The `BoxAnno` that `plot_one_box` records for detection row `r`. -/
def annoOfRow (d : YOLODetector) (r : Det) : BoxAnno :=
  { box := r
    label := d.names.getD r.cls "" ++ " " ++ conf2str r.conf
    color := d.colors.getD r.cls []
    thickness := d.line_thickness }

/-- `plot_one_box(...)`: draws one labeled rectangle onto the buffer. -/
def drawBox (b : BoxAnno) (f : Frame) : Frame := { f with boxes := f.boxes ++ [b] }

/-- `cv2.putText(...)`: draws one text overlay onto the buffer. -/
def drawText (t : String) (f : Frame) : Frame := { f with texts := f.texts ++ [t] }

/-- The inner loop of `detect` (detector.py lines 152-164): iterate over
`reversed(det)`, append the class name to `detected_classes`, then draw the
box onto the working buffer. -/
def processDet (d : YOLODetector) (det : List Det) (acc : Frame × List String) :
    Frame × List String :=
  det.reverse.foldl
    (fun ac r => (drawBox (annoOfRow d r) ac.1, ac.2 ++ [d.names.getD r.cls ""]))
    acc

/-- The outer loop of `detect` (detector.py lines 145-164): for each per-image
prediction, skip `None` and empty tensors, otherwise rescale the rows and run
the inner annotation loop. -/
def detectLoop (d : YOLODetector) (sf : Int → Int → Int → Int → Int × Int × Int × Int)
    (pred : List (Option (List Det))) (acc : Frame × List String) :
    Frame × List String :=
  pred.foldl
    (fun ac o =>
      match o with
      | none => ac
      | some det => if det.isEmpty then ac else processDet d (det.map (scaleDet sf)) ac)
    acc

/-- The prediction value returned by `detect` after the loop: the in-place
`det[:, :4] = scale_boxes(...)` has rescaled every non-`None`, nonempty det. -/
def scaledPred (sf : Int → Int → Int → Int → Int × Int × Int × Int)
    (pred : List (Option (List Det))) : List (Option (List Det)) :=
  pred.map (fun o => o.map (fun det => if det.isEmpty then det else det.map (scaleDet sf)))

/-- Possible failures of `detect`: the `RuntimeError` raised at
detector.py lines 120-121 when `initialize` has not succeeded. -/
inductive DetectErr
  | notInitialized
deriving DecidableEq

/-- The detection rows processed by the annotation loop, in drawing order. -/
def rowsOf (sf : Int → Int → Int → Int → Int × Int × Int × Int) :
    List (Option (List Det)) → List Det
  | [] => []
  | none :: t => rowsOf sf t
  | some det :: t =>
      (if det.isEmpty then [] else (det.map (scaleDet sf)).reverse) ++ rowsOf sf t

/-- The class names appended to `detected_classes` for a row list. -/
def detNames (d : YOLODetector) (rows : List Det) : List String :=
  rows.map (fun r => d.names.getD r.cls "")

/-- `YOLODetector.detect` (detector.py lines 110-166) over the store model.
`st` is the buffer heap and `imgId` the reference passed in as `img`.
If not initialized it raises at once (store untouched, nothing run).
Otherwise: `original_img = img.copy()` allocates a fresh buffer (id
`st.length`) holding the input's value; `preprocess_image` reads the input;
the external network + `non_max_suppression` produce `pred` via the oracle
`inf`; the loop rescales rows via the external `sf` oracle and draws every
detection onto the fresh buffer; `detect` returns the mutated copy's id, the
(rescaled) predictions and the detected class names. -/
def YOLODetector.detect (d : YOLODetector)
    (inf : PreparedTensor → List (Option (List Det)))
    (sf : Int → Int → Int → Int → Int × Int × Int × Int)
    (st : Store) (imgId : Nat) :
    YOLODetector × Store × Except DetectErr (Nat × List (Option (List Det)) × List String) :=
  if d.initialized = false then (d, st, Except.error DetectErr.notInitialized)
  else
    (d,
     st ++ [(detectLoop d sf (inf (preprocess_image (st.getD imgId emptyFrame)))
              (st.getD imgId emptyFrame, [])).1],
     Except.ok (st.length,
       scaledPred sf (inf (preprocess_image (st.getD imgId emptyFrame))),
       (detectLoop d sf (inf (preprocess_image (st.getD imgId emptyFrame)))
         (st.getD imgId emptyFrame, [])).2))

/-- `cv2.VideoCapture` as the session sees it: open flag plus the frames the
source will still deliver. -/
structure Cap where
  opened : Bool
  frames : List Frame
deriving DecidableEq

/-- `cap.read()`: on an opened capture with frames left, deliver the next
frame and advance; an unopened or exhausted capture yields `ret = False`,
modelled as `none`. -/
def capRead (c : Cap) : Cap × Option Frame :=
  if c.opened then
    match c.frames with
    | [] => (c, none)
    | f :: rest => ({ c with frames := rest }, some f)
  else (c, none)

/-- `cap.release()`: afterwards `isOpened()` is false and nothing is readable. -/
def capRelease (_ : Cap) : Cap := { opened := false, frames := [] }

/-- `cv2.VideoWriter` (the recording sink): the frames written so far. -/
structure Writer where
  written : List Frame
deriving DecidableEq

/-- `create_video_writer(cap, path)` (utils.py lines 55-77): a fresh writer. -/
def mkWriter (_ : Cap) : Writer := { written := [] }

/-- The `MainWindow` session state (main_windows.py lines 30-54): the
detector-initialized flag, the capture handle, the optional output sink
(`self.out`), the `QTimer` active flag, the FPS accumulators
(`self.fps`, `self.fps_last_time`, `self.frame_count`), plus logs of the
frames forwarded to the display sink and of reported per-frame errors. -/
structure MW where
  detectorInitialized : Bool
  cap : Cap
  out : Option Writer
  timerActive : Bool
  fps : Rat
  fps_last_time : Rat
  frame_count : Nat
  displayed : List Frame
  errors : List String
deriving DecidableEq

/-- `stop_detection` (main_windows.py lines 448-479): stop the timer, release
the capture if it is open, release the writer and clear the field if it is
bound, reset UI indicators (not modelled). -/
def stop_detection (s : MW) : MW :=
  { s with timerActive := false
           cap := if s.cap.opened then capRelease s.cap else s.cap
           out := none }

/-- `closeEvent` (main_windows.py lines 491-498): the controller's own
teardown calls `stop_detection` only when the video timer is active. -/
def closeEvent (s : MW) : MW :=
  if s.timerActive then stop_detection s else s

/-- `toggle_pause` (main_windows.py lines 434-446): an active timer is
stopped (pause); otherwise, if the capture is still open, the 30 ms timer is
restarted (resume). -/
def toggle_pause (s : MW) : MW :=
  if s.timerActive then { s with timerActive := false }
  else if s.cap.opened then { s with timerActive := true }
  else s

/-- The FPS bookkeeping at the top of `process_video_frame`
(main_windows.py lines 324-333): `frame_count += 1`; then, whenever
`current_time - fps_last_time >= 1.0`, set `fps = frame_count / time_diff`
(with the just-incremented count) and reset both accumulators. -/
def fpsTick (now : Rat) (s : MW) : MW :=
  if 1 ≤ now - s.fps_last_time then
    { s with fps := ((s.frame_count + 1 : Nat) : Rat) / (now - s.fps_last_time)
             fps_last_time := now
             frame_count := 0 }
  else
    { s with frame_count := s.frame_count + 1 }

/-- The FPS text drawn on every streamed frame (main_windows.py line 355):
the dynamic `f"FPS: {self.fps:.1f}"` on line 354 is commented out in the
source and a constant string is used instead. -/
def fpsLabelText : String := "FPS: 49.8"

/-- The orientation heuristic (main_windows.py lines 344-348): a frame that
is strictly taller than wide is rotated 90 degrees counterclockwise before
detection; otherwise it is passed through. -/
def orientFrame (f : Frame) : Frame :=
  if f.width < f.height then rotate90CCW f else f

/-- `if self.out is not None: self.out.write(result_img)`
(main_windows.py lines 374-375). -/
def writeOut (s : MW) (f : Frame) : MW :=
  match s.out with
  | some w => { s with out := some { written := w.written ++ [f] } }
  | none => s

/-- Forwarding the annotated frame to the display sink
(main_windows.py lines 378-379). -/
def writeDisplay (s : MW) (f : Frame) : MW :=
  { s with displayed := s.displayed ++ [f] }

/-- The rest of `process_video_frame` after the FPS bookkeeping
(main_windows.py lines 335-382): read a frame; if none is delivered, call
`stop_detection` and return; otherwise, inside try/except: orient the frame,
run the detector (`detFn` is `self.detector.detect` plus the annotation code,
any raised exception surfaces as `Except.error`), draw the FPS text, write to
the output sink if bound, forward to the display; on an exception the error
is printed (logged) and the handler returns normally. -/
def tickBody (detFn : Frame → Except String Frame) (s1 : MW) : MW :=
  match (capRead s1.cap).2 with
  | none => stop_detection { s1 with cap := (capRead s1.cap).1 }
  | some frame =>
      match detFn (orientFrame frame) with
      | Except.error e =>
          { s1 with cap := (capRead s1.cap).1, errors := s1.errors ++ [e] }
      | Except.ok result =>
          writeDisplay
            (writeOut { s1 with cap := (capRead s1.cap).1 } (drawText fpsLabelText result))
            (drawText fpsLabelText result)

/-- `process_video_frame` (main_windows.py lines 322-382): FPS bookkeeping,
then the read/detect/annotate/emit body. -/
def process_video_frame (detFn : Frame → Except String Frame) (now : Rat) (s : MW) : MW :=
  tickBody detFn (fpsTick now s)

/-- `QTimer` delivery semantics: the `timeout` signal connected to
`process_video_frame` fires only while the timer is active. -/
def timerFires (detFn : Frame → Except String Frame) (now : Rat) (s : MW) : MW :=
  if s.timerActive then process_video_frame detFn now s else s

/-- `open_video` (main_windows.py lines 261-320): guarded by detector
initialization and file selection; on a successful `cap.open` it binds the
capture, creates the output writer, resets the three FPS accumulators and
starts the 30 ms timer.  `videoChosen` models the file-dialog outcome,
`openOk` the `cap.open(path)` result and `newFrames` the opened stream. -/
def open_video (videoChosen openOk : Bool) (newFrames : List Frame) (now : Rat) (s : MW) : MW :=
  if s.detectorInitialized = false then s
  else if videoChosen = false then s
  else if openOk = false then { s with cap := { opened := false, frames := [] } }
  else
    { s with cap := { opened := true, frames := newFrames }
             out := some (mkWriter { opened := true, frames := newFrames })
             fps := 0
             fps_last_time := now
             frame_count := 0
             timerActive := true }

/-- `toggle_camera` (main_windows.py lines 384-432): with the timer inactive
it opens the default camera, binds the writer and starts the timer — without
touching the FPS accumulators; with the timer active it stops detection. -/
def toggle_camera (openOk : Bool) (camFrames : List Frame) (s : MW) : MW :=
  if s.detectorInitialized = false ∧ s.timerActive = false then s
  else if s.timerActive = false then
    if openOk = false then { s with cap := { opened := false, frames := [] } }
    else
      { s with cap := { opened := true, frames := camFrames }
               out := some (mkWriter { opened := true, frames := camFrames })
               timerActive := true }
  else stop_detection s

/-!  Concrete fixtures used to exercise the model on closed inputs. -/

/-- A 2x2 landscape-or-square test frame. -/
def f0 : Frame := { rows := [[1, 2], [3, 4]], boxes := [], texts := [] }

/-- A 2x1 portrait (taller than wide) test frame. -/
def tallF : Frame := { rows := [[1], [2]], boxes := [], texts := [] }

/-- A detect oracle that annotates nothing and never fails. -/
def detOk : Frame → Except String Frame := fun fr => Except.ok fr

/-- A detect oracle that always raises, modelling a per-frame failure. -/
def detBad : Frame → Except String Frame := fun _ => Except.error "bad frame"

/-- Identity rescaling oracle. -/
def sfId : Int → Int → Int → Int → Int × Int × Int × Int := fun a b c e => (a, b, c, e)

/-- A detector before any call to `initialize` (detector.py lines 19-33,
with the default thresholds of settings.py). -/
def det0 : YOLODetector :=
  { initialized := false, names := [], colors := [], conf_thres := 1 / 4,
    iou_thres := 9 / 20, line_thickness := 3 }

/-- An initialized detector with one class. -/
def det1 : YOLODetector :=
  { initialized := true, names := ["person"], colors := [[10, 20, 30]],
    conf_thres := 1 / 4, iou_thres := 9 / 20, line_thickness := 3 }

/-- A single high-confidence detection row for class 0. -/
def r0 : Det := { x1 := 0, y1 := 0, x2 := 1, y2 := 1, conf := 9 / 10, cls := 0 }

/-- An inference oracle returning one detection for every frame. -/
def inf1 : PreparedTensor → List (Option (List Det)) := fun _ => [some [r0]]

/-- An inference oracle whose post-processing yields no detections. -/
def infEmpty : PreparedTensor → List (Option (List Det)) := fun _ => [none, some []]

/-- The window right after startup with an initialized detector
(`__init__`, main_windows.py lines 30-54: closed capture, no writer,
timer stopped, FPS accumulators zeroed). -/
def mw0 : MW :=
  { detectorInitialized := true, cap := { opened := false, frames := [] }, out := none,
    timerActive := false, fps := 0, fps_last_time := 0, frame_count := 0,
    displayed := [], errors := [] }

/-- A running session over a two-frame video, opened at time 0. -/
def sRun : MW := open_video true true [f0, f0] 0 mw0

/-- The running session paused by the operator. -/
def sPaused : MW := toggle_pause sRun

/-- A running session whose source delivers no further frame (end of stream). -/
def sEnd : MW := open_video true true [] 0 mw0

/-- A running session over a single portrait frame. -/
def sTall : MW := open_video true true [tallF] 0 mw0

/-- The session after five delivered ticks of `sRun5` below, stopped, then
the camera source opened: reachable through the model's own transitions. -/
def sRun5 : MW := open_video true true [f0, f0, f0, f0, f0] 0 mw0

/-- `sRun5` after five timer ticks at time 0. -/
def sAfter5 : MW :=
  List.foldl (fun t n => timerFires detOk n t) sRun5 [0, 0, 0, 0, 0]

/-- `sAfter5` stopped by the operator (note: `stop_detection` does not touch
the FPS accumulators). -/
def sStopped5 : MW := stop_detection sAfter5

/-- The camera source opened right after `sStopped5`. -/
def sCam : MW := toggle_camera true [f0] sStopped5

/-- An idle window whose frame counter is mid-window at 3. -/
def sAcc : MW := { mw0 with frame_count := 3 }

/-!  Helper lemmas. -/

/-- The FPS bookkeeping touches only the three accumulator fields. -/
@[simp] lemma fpsTick_cap (now : Rat) (s : MW) : (fpsTick now s).cap = s.cap := by
  unfold fpsTick; split <;> rfl

@[simp] lemma fpsTick_out (now : Rat) (s : MW) : (fpsTick now s).out = s.out := by
  unfold fpsTick; split <;> rfl

@[simp] lemma fpsTick_timerActive (now : Rat) (s : MW) :
    (fpsTick now s).timerActive = s.timerActive := by
  unfold fpsTick; split <;> rfl

@[simp] lemma fpsTick_displayed (now : Rat) (s : MW) :
    (fpsTick now s).displayed = s.displayed := by
  unfold fpsTick; split <;> rfl

@[simp] lemma fpsTick_errors (now : Rat) (s : MW) : (fpsTick now s).errors = s.errors := by
  unfold fpsTick; split <;> rfl

@[simp] lemma stop_detection_timer (s : MW) : (stop_detection s).timerActive = false := rfl

@[simp] lemma stop_detection_out (s : MW) : (stop_detection s).out = none := rfl

@[simp] lemma stop_detection_cap_opened (s : MW) : (stop_detection s).cap.opened = false := by
  unfold stop_detection
  by_cases h : s.cap.opened = true
  · simp [h, capRelease]
  · simp only [Bool.not_eq_true] at h
    simp [h]

lemma stop_detection_idem (s : MW) : stop_detection (stop_detection s) = stop_detection s := by
  unfold stop_detection capRelease
  by_cases h : s.cap.opened = true
  · simp [h]
  · simp only [Bool.not_eq_true] at h
    simp [h]

@[simp] lemma writeOut_displayed (s : MW) (f : Frame) :
    (writeOut s f).displayed = s.displayed := by
  unfold writeOut; split <;> rfl

@[simp] lemma writeOut_cap (s : MW) (f : Frame) : (writeOut s f).cap = s.cap := by
  unfold writeOut; split <;> rfl

@[simp] lemma writeOut_timerActive (s : MW) (f : Frame) :
    (writeOut s f).timerActive = s.timerActive := by
  unfold writeOut; split <;> rfl

/-- A stopped timer delivers no tick: the state is untouched. -/
lemma timerFires_inactive (detFn : Frame → Except String Frame) (now : Rat) (s : MW)
    (h : s.timerActive = false) : timerFires detFn now s = s := by
  simp [timerFires, h]

/-- No sequence of timer events changes a state whose timer is stopped. -/
lemma foldl_timerFires_inactive (detFn : Frame → Except String Frame) (s : MW)
    (h : s.timerActive = false) (nows : List Rat) :
    List.foldl (fun t n => timerFires detFn n t) s nows = s := by
  induction nows with
  | nil => rfl
  | cons a t ih => rw [List.foldl_cons, timerFires_inactive detFn a s h]; exact ih

/-- Unfolding the inner annotation fold of `detect`. -/
lemma foldAnno_eq (d : YOLODetector) (l : List Det) (fr : Frame) (cs : List String) :
    l.foldl (fun ac r => (drawBox (annoOfRow d r) ac.1, ac.2 ++ [d.names.getD r.cls ""]))
        (fr, cs) =
      ({ fr with boxes := fr.boxes ++ l.map (annoOfRow d) }, cs ++ detNames d l) := by
  induction l generalizing fr cs with
  | nil => simp [detNames]
  | cons a t ih =>
      simp only [List.foldl_cons]
      rw [ih]
      simp [drawBox, detNames, List.append_assoc]

/-- `processDet` appends one annotation per row (in reversed order) and the
matching class names. -/
lemma processDet_eq (d : YOLODetector) (det : List Det) (fr : Frame) (cs : List String) :
    processDet d det (fr, cs) =
      ({ fr with boxes := fr.boxes ++ det.reverse.map (annoOfRow d) },
       cs ++ detNames d det.reverse) := by
  unfold processDet
  exact foldAnno_eq d det.reverse fr cs

/-- `detectLoop` appends exactly the annotations of `rowsOf` and collects the
matching class names. -/
lemma detectLoop_eq (d : YOLODetector) (sf : Int → Int → Int → Int → Int × Int × Int × Int)
    (pred : List (Option (List Det))) (fr : Frame) (cs : List String) :
    detectLoop d sf pred (fr, cs) =
      ({ fr with boxes := fr.boxes ++ (rowsOf sf pred).map (annoOfRow d) },
       cs ++ detNames d (rowsOf sf pred)) := by
  induction pred generalizing fr cs with
  | nil => simp [detectLoop, rowsOf, detNames]
  | cons o t ih =>
      match o with
      | none =>
          unfold detectLoop at ih ⊢
          simp only [List.foldl_cons]
          rw [ih]
          simp [rowsOf]
      | some det =>
          unfold detectLoop at ih ⊢
          simp only [List.foldl_cons]
          by_cases he : det.isEmpty
          · simp only [he, if_true]
            rw [ih]
            simp [rowsOf, he]
          · simp only [he, if_false]
            rw [show processDet d (det.map (scaleDet sf)) (fr, cs) =
                  ({ fr with boxes := fr.boxes ++ (det.map (scaleDet sf)).reverse.map (annoOfRow d) },
                   cs ++ detNames d (det.map (scaleDet sf)).reverse) from
                processDet_eq d (det.map (scaleDet sf)) fr cs]
            rw [ih]
            simp [rowsOf, he, detNames, List.append_assoc]

/-- When every per-image prediction is `None` or empty, the loop processes no
row at all. -/
lemma rowsOf_nil_of_trivial (sf : Int → Int → Int → Int → Int × Int × Int × Int)
    (pred : List (Option (List Det))) (hp : ∀ o ∈ pred, o = none ∨ o = some []) :
    rowsOf sf pred = [] := by
  induction pred with
  | nil => rfl
  | cons o t ih =>
      have ht : rowsOf sf t = [] := ih (fun x hx => hp x (List.mem_cons_of_mem o hx))
      rcases hp o (List.mem_cons_self o t) with h | h
      · rw [h]; simpa [rowsOf] using ht
      · rw [h]; simpa [rowsOf] using ht

/-- The FPS field is write-only for the bookkeeping step: changing it changes
nothing else, and it is overwritten whenever the one-second window elapses. -/
lemma fpsTick_fps (now : Rat) (s : MW) (q : Rat) :
    fpsTick now { s with fps := q } =
      if 1 ≤ now - s.fps_last_time then fpsTick now s else { fpsTick now s with fps := q } := by
  unfold fpsTick
  by_cases h : 1 ≤ now - s.fps_last_time <;> simp [h]

/-- The tick body never reads the FPS statistic. -/
lemma tickBody_fps (detFn : Frame → Except String Frame) (s1 : MW) (q : Rat) :
    tickBody detFn { s1 with fps := q } = { tickBody detFn s1 with fps := q } := by
  unfold tickBody
  cases h : (capRead s1.cap).2 with
  | none =>
      simp only [h, stop_detection]
  | some f =>
      cases hd : detFn (orientFrame f) with
      | error e => simp [h, hd]
      | ok r =>
          cases ho : s1.out with
          | none => simp [h, hd, writeOut, writeDisplay, ho]
          | some w => simp [h, hd, writeOut, writeDisplay, ho]

/-- A whole tick never reads the FPS statistic: its effect on every other
field is the same for every stored `fps` value. -/
lemma tick_fps (detFn : Frame → Except String Frame) (now : Rat) (s : MW) (q : Rat) :
    process_video_frame detFn now { s with fps := q } =
      if 1 ≤ now - s.fps_last_time then process_video_frame detFn now s
      else { process_video_frame detFn now s with fps := q } := by
  unfold process_video_frame
  rw [fpsTick_fps]
  by_cases h : 1 ≤ now - s.fps_last_time
  · simp [h]
  · simp only [h, if_false]
    exact tickBody_fps detFn (fpsTick now s) q

/-!  Claim theorems. -/

/-- Claim C1: for every frame (any store, any buffer id), calling `detect`
before a successful `initialize` fails with the NotInitialized error — the
error is the call's result, never silently swallowed — and `detect` performs
no preprocessing, inference or annotation in that case: the detector state
and the whole buffer store are returned untouched. -/
theorem C1_detect_before_initialize (d : YOLODetector)
    (inf : PreparedTensor → List (Option (List Det)))
    (sf : Int → Int → Int → Int → Int × Int × Int × Int)
    (st : Store) (imgId : Nat) (h : d.initialized = false) :
    d.detect inf sf st imgId = (d, st, Except.error DetectErr.notInitialized) := by
  simp [YOLODetector.detect, h]

/-- Witness for C1 at a concrete uninitialized detector and store. -/
theorem C1_witness :
    det0.initialized = false ∧
    det0.detect inf1 sfId [f0] 0 = (det0, [f0], Except.error DetectErr.notInitialized) :=
  ⟨rfl, C1_detect_before_initialize det0 inf1 sfId [f0] 0 rfl⟩

/-- Claim C7: `detect` draws detections only onto a freshly allocated copy of
the input frame and returns that annotated copy; every pre-existing buffer —
in particular the frame passed in — is unchanged by preprocessing, inference
and annotation, the returned buffer id is the new slot (distinct from the
input's id), and its pixel grid is the copied input's with the detection
annotations appended. -/
theorem C7_detect_never_mutates_input (d : YOLODetector)
    (inf : PreparedTensor → List (Option (List Det)))
    (sf : Int → Int → Int → Int → Int × Int × Int × Int)
    (st : Store) (imgId : Nat) (h : d.initialized = true) (hid : imgId < st.length) :
    (∀ j, j < st.length →
      ((d.detect inf sf st imgId).2.1).getD j emptyFrame = st.getD j emptyFrame) ∧
    ((d.detect inf sf st imgId).2.1).length = st.length + 1 ∧
    st.length ≠ imgId ∧
    ((d.detect inf sf st imgId).2.1).getD st.length emptyFrame =
      { st.getD imgId emptyFrame with
        boxes := (st.getD imgId emptyFrame).boxes ++
          (rowsOf sf (inf (preprocess_image (st.getD imgId emptyFrame)))).map (annoOfRow d) } ∧
    (d.detect inf sf st imgId).2.2 =
      Except.ok (st.length,
        scaledPred sf (inf (preprocess_image (st.getD imgId emptyFrame))),
        detNames d (rowsOf sf (inf (preprocess_image (st.getD imgId emptyFrame))))) := by
  have hd : d.detect inf sf st imgId =
      (d,
       st ++ [{ st.getD imgId emptyFrame with
                boxes := (st.getD imgId emptyFrame).boxes ++
                  (rowsOf sf (inf (preprocess_image (st.getD imgId emptyFrame)))).map
                    (annoOfRow d) }],
       Except.ok (st.length,
         scaledPred sf (inf (preprocess_image (st.getD imgId emptyFrame))),
         detNames d (rowsOf sf (inf (preprocess_image (st.getD imgId emptyFrame)))))) := by
    unfold YOLODetector.detect
    rw [detectLoop_eq]
    simp [h]
  refine ⟨?_, ?_, ?_, ?_, ?_⟩
  · intro j hj
    rw [hd]
    exact List.getD_append _ _ _ _ hj
  · rw [hd]; simp
  · omega
  · rw [hd]
    rw [show ((st ++
        [{ st.getD imgId emptyFrame with
           boxes := (st.getD imgId emptyFrame).boxes ++
             (rowsOf sf (inf (preprocess_image (st.getD imgId emptyFrame)))).map
               (annoOfRow d) }]) : Store).getD st.length emptyFrame =
        ([{ st.getD imgId emptyFrame with
            boxes := (st.getD imgId emptyFrame).boxes ++
              (rowsOf sf (inf (preprocess_image (st.getD imgId emptyFrame)))).map
                (annoOfRow d) }] : Store).getD (st.length - st.length) emptyFrame from
      List.getD_append_right _ _ _ _ (le_refl st.length)]
    simp
  · rw [hd]

/-- Witness for C7 at a concrete initialized detector, a one-buffer store and
an inference oracle producing one detection. -/
theorem C7_witness :
    ((det1.detect inf1 sfId [f0] 0).2.1).getD 0 emptyFrame = ([f0] : Store).getD 0 emptyFrame ∧
    ((det1.detect inf1 sfId [f0] 0).2.1).length = 2 ∧
    ((det1.detect inf1 sfId [f0] 0).2.1).getD 1 emptyFrame =
      { ([f0] : Store).getD 0 emptyFrame with
        boxes := (([f0] : Store).getD 0 emptyFrame).boxes ++
          (rowsOf sfId (inf1 (preprocess_image (([f0] : Store).getD 0 emptyFrame)))).map
            (annoOfRow det1) } := by
  have h := C7_detect_never_mutates_input det1 inf1 sfId [f0] 0 rfl (by decide)
  exact ⟨h.1 0 (by decide), h.2.1, h.2.2.2.1⟩

/-- Counterexample to C8 as stated: the color assignment is not derived
deterministically from the class index.  Two initializations of the same
detector with the same single-class model, differing only in the random
stream, assign different colors to class 0. -/
theorem C8_counterexample :
    ((det0.initializeDetector (some { names := ["person"] }) (fun _ => 0)).1).colors ≠
      ((det0.initializeDetector (some { names := ["person"] }) (fun _ => 1)).1).colors := by
  decide

/-- Claim C8 (amended): after a successful initialize, exactly one display
color is assigned per class; the assignment is stable for the lifetime of the
handle — `detect` returns the detector state unchanged, so it never
re-randomizes or modifies the colors, and every annotation of a detection
uses the color stored for its class index — but the assignment is drawn from
the random stream at initialization time (arbitrary per handle), not derived
deterministically from the class index. -/
theorem C8_amended_color_assignment (d : YOLODetector) (m : LoadedModel) (rng : Nat → Nat)
    (inf : PreparedTensor → List (Option (List Det)))
    (sf : Int → Int → Int → Int → Int × Int × Int × Int) (st : Store) (imgId : Nat) :
    ((d.initializeDetector (some m) rng).1).colors.length =
      ((d.initializeDetector (some m) rng).1).names.length ∧
    ((d.initializeDetector (some m) rng).1).initialized = true ∧
    (d.initializeDetector (some m) rng).2 = true ∧
    (d.detect inf sf st imgId).1 = d ∧
    (∀ r : Det, (annoOfRow d r).color = d.colors.getD r.cls []) ∧
    (d.initialized = true →
      ((d.detect inf sf st imgId).2.1).getD st.length emptyFrame =
        { st.getD imgId emptyFrame with
          boxes := (st.getD imgId emptyFrame).boxes ++
            (rowsOf sf (inf (preprocess_image (st.getD imgId emptyFrame)))).map
              (annoOfRow d) }) := by
  refine ⟨?_, rfl, rfl, ?_, fun r => rfl, ?_⟩
  · simp [YOLODetector.initializeDetector, initColors]
  · unfold YOLODetector.detect
    split <;> rfl
  · intro h
    have hd : (d.detect inf sf st imgId).2.1 =
        st ++ [{ st.getD imgId emptyFrame with
                 boxes := (st.getD imgId emptyFrame).boxes ++
                   (rowsOf sf (inf (preprocess_image (st.getD imgId emptyFrame)))).map
                     (annoOfRow d) }] := by
      unfold YOLODetector.detect
      rw [detectLoop_eq]
      simp [h]
    rw [hd]
    rw [show ((st ++
        [{ st.getD imgId emptyFrame with
           boxes := (st.getD imgId emptyFrame).boxes ++
             (rowsOf sf (inf (preprocess_image (st.getD imgId emptyFrame)))).map
               (annoOfRow d) }]) : Store).getD st.length emptyFrame =
        ([{ st.getD imgId emptyFrame with
            boxes := (st.getD imgId emptyFrame).boxes ++
              (rowsOf sf (inf (preprocess_image (st.getD imgId emptyFrame)))).map
                (annoOfRow d) }] : Store).getD (st.length - st.length) emptyFrame from
      List.getD_append_right _ _ _ _ (le_refl st.length)]
    simp

/-- Witness for C8 (amended) at concrete inputs. -/
theorem C8_witness :
    ((det0.initializeDetector (some { names := ["person", "car"] }) (fun _ => 7)).1).colors.length =
      ((det0.initializeDetector (some { names := ["person", "car"] }) (fun _ => 7)).1).names.length ∧
    (det1.detect inf1 sfId [f0] 0).1 = det1 ∧
    (annoOfRow det1 r0).color = det1.colors.getD r0.cls [] ∧
    ((det1.detect inf1 sfId [f0] 0).2.1).getD 1 emptyFrame =
      { ([f0] : Store).getD 0 emptyFrame with
        boxes := (([f0] : Store).getD 0 emptyFrame).boxes ++
          (rowsOf sfId (inf1 (preprocess_image (([f0] : Store).getD 0 emptyFrame)))).map
            (annoOfRow det1) } := by
  have h1 := C8_amended_color_assignment det0 { names := ["person", "car"] } (fun _ => 7)
    inf1 sfId [f0] 0
  have h2 := C8_amended_color_assignment det1 { names := ["person", "car"] } (fun _ => 7)
    inf1 sfId [f0] 0
  exact ⟨h1.1, h2.2.2.2.1, h2.2.2.2.2.1 r0, h2.2.2.2.2.2 rfl⟩

/-- Claim C9: when post-processing yields no detections (every per-image
prediction `None` or empty), `detect` returns normally: the store gains an
unannotated copy of the input frame, the returned detected-classes list is
empty and no error is raised. -/
theorem C9_empty_predictions (d : YOLODetector)
    (inf : PreparedTensor → List (Option (List Det)))
    (sf : Int → Int → Int → Int → Int × Int × Int × Int)
    (st : Store) (imgId : Nat) (h : d.initialized = true)
    (hp : ∀ o ∈ inf (preprocess_image (st.getD imgId emptyFrame)), o = none ∨ o = some []) :
    d.detect inf sf st imgId =
      (d, st ++ [st.getD imgId emptyFrame],
       Except.ok (st.length,
         scaledPred sf (inf (preprocess_image (st.getD imgId emptyFrame))), [])) := by
  unfold YOLODetector.detect
  rw [detectLoop_eq, rowsOf_nil_of_trivial sf _ hp]
  simp [h, detNames]

/-- Witness for C9 at a concrete store and an oracle with no detections. -/
theorem C9_witness :
    det1.initialized = true ∧
    det1.detect infEmpty sfId [f0] 0 =
      (det1, [f0, f0], Except.ok (1, [none, some []], [])) := by
  have h := C9_empty_predictions det1 infEmpty sfId [f0] 0 rfl (by decide)
  exact ⟨rfl, by rw [h]; rfl⟩

/-- Counterexample to C2 as stated: the controller's own teardown does not
release the resources unconditionally.  In the reachable paused state
(`openSource` then `pause`), `closeEvent` leaves the capture handle open and
the output sink bound. -/
theorem C2_counterexample :
    sPaused.timerActive = false ∧ sPaused.cap.opened = true ∧ sPaused.out ≠ none ∧
    (closeEvent sPaused).cap.opened = true ∧ (closeEvent sPaused).out ≠ none := by
  decide

/-- Claim C2 (amended): the explicit stop transition releases both the
capture handle and the output sink from every state, leaving `isOpened()`
false and the output-sink field cleared, and a subsequent stop always
succeeds (stop is idempotent and total); the controller's own teardown
performs this full release only when the periodic tick is active at close
time — from a state with a stopped timer (e.g. paused), teardown leaves the
state, and hence both resources, untouched. -/
theorem C2_amended_stop_release (s : MW) :
    (stop_detection s).cap.opened = false ∧
    (stop_detection s).out = none ∧
    (stop_detection s).timerActive = false ∧
    stop_detection (stop_detection s) = stop_detection s ∧
    (s.timerActive = true → closeEvent s = stop_detection s) ∧
    (s.timerActive = false → closeEvent s = s) := by
  refine ⟨stop_detection_cap_opened s, rfl, rfl, stop_detection_idem s, ?_, ?_⟩
  · intro h; simp [closeEvent, h]
  · intro h; simp [closeEvent, h]

/-- Witness for C2 (amended) at the concrete running session. -/
theorem C2_witness :
    (stop_detection sRun).cap.opened = false ∧
    (stop_detection sRun).out = none ∧
    stop_detection (stop_detection sRun) = stop_detection sRun ∧
    closeEvent sRun = stop_detection sRun := by
  have h := C2_amended_stop_release sRun
  exact ⟨h.1, h.2.1, h.2.2.2.1, h.2.2.2.2.1 (by decide)⟩

/-- Claim C3: on a tick while running, a frame pull that delivers no frame
makes the session perform the full stop transition itself (timer cancelled,
capture released, sink cleared) with no exception; a failing detect/annotate
step on a delivered frame is recorded as a reported error and the tick
returns normally — timer still active, display and output sinks untouched —
so the session continues to the next tick. -/
theorem C3_tick_failure_handling (detFn : Frame → Except String Frame) (now : Rat) (s : MW)
    (hA : s.timerActive = true) :
    ((capRead (fpsTick now s).cap).2 = none →
      process_video_frame detFn now s =
        stop_detection { fpsTick now s with cap := (capRead (fpsTick now s).cap).1 } ∧
      (process_video_frame detFn now s).timerActive = false ∧
      (process_video_frame detFn now s).cap.opened = false ∧
      (process_video_frame detFn now s).out = none) ∧
    (∀ f e, (capRead (fpsTick now s).cap).2 = some f →
      detFn (orientFrame f) = Except.error e →
      process_video_frame detFn now s =
        { fpsTick now s with cap := (capRead (fpsTick now s).cap).1,
                             errors := s.errors ++ [e] } ∧
      (process_video_frame detFn now s).timerActive = true ∧
      (process_video_frame detFn now s).displayed = s.displayed ∧
      (process_video_frame detFn now s).out = s.out) := by
  constructor
  · intro h
    have he : process_video_frame detFn now s =
        stop_detection { fpsTick now s with cap := (capRead (fpsTick now s).cap).1 } := by
      unfold process_video_frame tickBody
      rw [h]
    refine ⟨he, ?_, ?_, ?_⟩ <;> rw [he] <;> simp
  · intro f e hf hd
    have he : process_video_frame detFn now s =
        { fpsTick now s with cap := (capRead (fpsTick now s).cap).1,
                             errors := s.errors ++ [e] } := by
      unfold process_video_frame tickBody
      rw [hf]
      dsimp only
      rw [hd]
      simp
    refine ⟨he, ?_, ?_, ?_⟩ <;> rw [he] <;> simp [hA]

/-- Witness for C3: the end-of-stream tick on `sEnd` stops the session; the
failing-detect tick on `sRun` keeps it running with sinks untouched. -/
theorem C3_witness :
    (process_video_frame detOk 0 sEnd).timerActive = false ∧
    (process_video_frame detOk 0 sEnd).cap.opened = false ∧
    (process_video_frame detOk 0 sEnd).out = none ∧
    (process_video_frame detBad 0 sRun).timerActive = true ∧
    (process_video_frame detBad 0 sRun).displayed = sRun.displayed ∧
    (process_video_frame detBad 0 sRun).out = sRun.out := by
  have h1 := (C3_tick_failure_handling detOk 0 sEnd rfl).1 (by rw [fpsTick_cap]; rfl)
  have h2 := (C3_tick_failure_handling detBad 0 sRun rfl).2 f0 "bad frame"
    (by rw [fpsTick_cap]; rfl) rfl
  exact ⟨h1.2.1, h1.2.2.1, h1.2.2.2, h2.2.1, h2.2.2.1, h2.2.2.2⟩

/-- Claim C4: pausing from the running state cancels the periodic tick while
leaving the capture handle and output sink bound; while paused, no number of
timer events changes the state, so no sink write occurs between pause and
resume; resuming with the capture still open reschedules the tick, and a
later stop still releases both resources. -/
theorem C4_pause_resume (s : MW) (hA : s.timerActive = true) :
    (toggle_pause s).timerActive = false ∧
    (toggle_pause s).cap = s.cap ∧
    (toggle_pause s).out = s.out ∧
    (∀ (detFn : Frame → Except String Frame) (nows : List Rat),
      List.foldl (fun t n => timerFires detFn n t) (toggle_pause s) nows = toggle_pause s) ∧
    (s.cap.opened = true → (toggle_pause (toggle_pause s)).timerActive = true) ∧
    (stop_detection (toggle_pause s)).cap.opened = false ∧
    (stop_detection (toggle_pause s)).out = none := by
  have hp : toggle_pause s = { s with timerActive := false } := by
    simp [toggle_pause, hA]
  refine ⟨by rw [hp], by rw [hp], by rw [hp], ?_, ?_, stop_detection_cap_opened _, rfl⟩
  · intro detFn nows
    exact foldl_timerFires_inactive detFn _ (by rw [hp]) nows
  · intro ho
    rw [hp]
    simp [toggle_pause, ho]

/-- Witness for C4 at the concrete running session. -/
theorem C4_witness :
    (toggle_pause sRun).timerActive = false ∧
    (toggle_pause sRun).out = sRun.out ∧
    List.foldl (fun t n => timerFires detOk n t) (toggle_pause sRun) [0, 1, 2] =
      toggle_pause sRun ∧
    (toggle_pause (toggle_pause sRun)).timerActive = true ∧
    (stop_detection (toggle_pause sRun)).out = none := by
  have h := C4_pause_resume sRun (by decide)
  exact ⟨h.1, h.2.2.1, h.2.2.2.1 detOk [0, 1, 2], h.2.2.2.2.1 (by decide),
    h.2.2.2.2.2.2⟩

/-- Counterexample to C5 as stated: the FPS accumulators are not reset on
every source open.  Reachable run: open a five-frame video, deliver five
ticks, stop, then open the camera source — the camera session starts with
the stale counter 5 and the stale window start, not with reset accumulators. -/
theorem C5_counterexample :
    sStopped5.frame_count = 5 ∧
    sCam.cap.opened = true ∧ sCam.timerActive = true ∧ sCam.out ≠ none ∧
    sCam.frame_count = 5 ∧ sCam.fps_last_time = sStopped5.fps_last_time := by
  norm_num [sCam, sStopped5, sAfter5, sRun5, mw0, toggle_camera, stop_detection,
    timerFires, process_video_frame, tickBody, fpsTick, capRead, capRelease, orientFrame,
    detOk, writeOut, writeDisplay, mkWriter, drawText, fpsLabelText, open_video, f0,
    Frame.width, Frame.height]
  exact Option.some_ne_none ({ written := [] } : Writer)

/-- Claim C5 (amended): the frame-rate statistic is a counter plus a window
start; on every tick whose elapsed-since-window-start is at least 1 second,
`fps` is set to the frames seen divided by the elapsed time and both
accumulators are reset (otherwise only the counter advances); the statistic
is read-only — a tick's effect on the timer, capture, sink and display is
identical for every stored `fps` value — and both accumulators are reset
when a new video file source is opened (camera opens do not reset them). -/
theorem C5_amended_fps_accounting (now : Rat) (s : MW) (q1 q2 : Rat)
    (detFn : Frame → Except String Frame) (newFrames : List Frame) :
    (1 ≤ now - s.fps_last_time →
      (fpsTick now s).fps = ((s.frame_count + 1 : Nat) : Rat) / (now - s.fps_last_time) ∧
      (fpsTick now s).frame_count = 0 ∧
      (fpsTick now s).fps_last_time = now) ∧
    (¬ 1 ≤ now - s.fps_last_time →
      (fpsTick now s).frame_count = s.frame_count + 1 ∧
      (fpsTick now s).fps = s.fps ∧
      (fpsTick now s).fps_last_time = s.fps_last_time) ∧
    ((process_video_frame detFn now { s with fps := q1 }).timerActive =
        (process_video_frame detFn now { s with fps := q2 }).timerActive ∧
      (process_video_frame detFn now { s with fps := q1 }).cap =
        (process_video_frame detFn now { s with fps := q2 }).cap ∧
      (process_video_frame detFn now { s with fps := q1 }).out =
        (process_video_frame detFn now { s with fps := q2 }).out ∧
      (process_video_frame detFn now { s with fps := q1 }).displayed =
        (process_video_frame detFn now { s with fps := q2 }).displayed) ∧
    (s.detectorInitialized = true →
      (open_video true true newFrames now s).fps = 0 ∧
      (open_video true true newFrames now s).fps_last_time = now ∧
      (open_video true true newFrames now s).frame_count = 0 ∧
      (open_video true true newFrames now s).timerActive = true) := by
  refine ⟨?_, ?_, ?_, ?_⟩
  · intro h; simp [fpsTick, h]
  · intro h; simp [fpsTick, h]
  · have e1 := tick_fps detFn now s q1
    have e2 := tick_fps detFn now s q2
    rw [e1, e2]
    by_cases h : 1 ≤ now - s.fps_last_time <;> simp [h]
  · intro h; simp [open_video, h]

/-- Witness for C5 (amended): mid-window state with counter 3, tick at time 2
(window of length 2): fps becomes 2, both accumulators reset; opening a video
resets the counter; two runs differing only in the stored fps display the
same frames. -/
theorem C5_witness :
    (fpsTick 2 sAcc).fps = 2 ∧
    (fpsTick 2 sAcc).frame_count = 0 ∧
    (fpsTick 2 sAcc).fps_last_time = 2 ∧
    (open_video true true [] 2 sAcc).frame_count = 0 ∧
    (process_video_frame detOk 0 { sRun with fps := 7 }).displayed =
      (process_video_frame detOk 0 { sRun with fps := 8 }).displayed := by
  have h := C5_amended_fps_accounting 2 sAcc 7 8 detOk []
  have h2 := C5_amended_fps_accounting 0 sRun 7 8 detOk []
  have ha := h.1 (by norm_num [sAcc, mw0])
  refine ⟨?_, ha.2.1, ha.2.2, (h.2.2.2 (by decide)).2.2.1, h2.2.2.1.2.2.2⟩
  rw [ha.1]
  norm_num [sAcc, mw0]

/-- Claim C6: for every successfully processed streamed frame, the FPS label
written onto the output frame — the one forwarded to the display sink and to
the recording sink — is the constant string "FPS: 49.8", for every value of
the computed fps statistic (the state `s`, hence `s.fps`, is arbitrary). -/
theorem C6_constant_fps_label (detFn : Frame → Except String Frame) (now : Rat) (s : MW)
    (f r : Frame)
    (hf : (capRead (fpsTick now s).cap).2 = some f)
    (hd : detFn (orientFrame f) = Except.ok r) :
    (process_video_frame detFn now s).displayed = s.displayed ++ [drawText "FPS: 49.8" r] ∧
    (∀ w, s.out = some w →
      (process_video_frame detFn now s).out =
        some { written := w.written ++ [drawText "FPS: 49.8" r] }) ∧
    fpsLabelText = "FPS: 49.8" := by
  have he : process_video_frame detFn now s =
      writeDisplay
        (writeOut { fpsTick now s with cap := (capRead (fpsTick now s).cap).1 }
          (drawText fpsLabelText r))
        (drawText fpsLabelText r) := by
    unfold process_video_frame tickBody
    rw [hf]
    dsimp only
    rw [hd]
  refine ⟨?_, ?_, rfl⟩
  · rw [he]
    simp [writeDisplay, fpsLabelText]
  · intro w hw
    rw [he]
    simp [writeDisplay, writeOut, hw, fpsLabelText]

/-- Witness for C6 at the concrete running session with a clean detect. -/
theorem C6_witness :
    (process_video_frame detOk 0 sRun).displayed =
      sRun.displayed ++ [drawText "FPS: 49.8" f0] ∧
    (process_video_frame detOk 0 sRun).out =
      some { written := [drawText "FPS: 49.8" f0] } := by
  have h := C6_constant_fps_label detOk 0 sRun f0 f0 (by rw [fpsTick_cap]; rfl) rfl
  exact ⟨h.1, h.2.1 (mkWriter { opened := true, frames := [f0, f0] }) rfl⟩

/-- Claim C10: on every tick, a pulled frame strictly taller than wide is
rotated 90 degrees before being handed to detection, and a frame at least as
wide as tall is handed over unrotated: the emitted display frame is the
annotated result of the detector applied to exactly that (rotated or
original) frame. -/
theorem C10_orient_before_detect (detFn : Frame → Except String Frame) (now : Rat) (s : MW)
    (f r : Frame) (hf : (capRead (fpsTick now s).cap).2 = some f) :
    (f.width < f.height → detFn (rotate90CCW f) = Except.ok r →
      (process_video_frame detFn now s).displayed = s.displayed ++ [drawText fpsLabelText r]) ∧
    (¬ f.width < f.height → detFn f = Except.ok r →
      (process_video_frame detFn now s).displayed = s.displayed ++ [drawText fpsLabelText r]) := by
  constructor
  · intro h1 h2
    have ho : orientFrame f = rotate90CCW f := by simp [orientFrame, h1]
    have he : process_video_frame detFn now s =
        writeDisplay
          (writeOut { fpsTick now s with cap := (capRead (fpsTick now s).cap).1 }
            (drawText fpsLabelText r))
          (drawText fpsLabelText r) := by
      unfold process_video_frame tickBody
      rw [hf]
      dsimp only
      rw [ho, h2]
    rw [he]
    simp [writeDisplay]
  · intro h1 h2
    have ho : orientFrame f = f := by simp [orientFrame, h1]
    have he : process_video_frame detFn now s =
        writeDisplay
          (writeOut { fpsTick now s with cap := (capRead (fpsTick now s).cap).1 }
            (drawText fpsLabelText r))
          (drawText fpsLabelText r) := by
      unfold process_video_frame tickBody
      rw [hf]
      dsimp only
      rw [ho, h2]
    rw [he]
    simp [writeDisplay]

/-- Witness for C10: a portrait frame is rotated before detection, a square
frame passes through unrotated. -/
theorem C10_witness :
    tallF.width < tallF.height ∧
    (process_video_frame detOk 0 sTall).displayed =
      sTall.displayed ++ [drawText fpsLabelText (rotate90CCW tallF)] ∧
    ¬ f0.width < f0.height ∧
    (process_video_frame detOk 0 sRun).displayed =
      sRun.displayed ++ [drawText fpsLabelText f0] := by
  have h1 := (C10_orient_before_detect detOk 0 sTall tallF (rotate90CCW tallF)
    (by rw [fpsTick_cap]; rfl)).1 (by decide) rfl
  have h2 := (C10_orient_before_detect detOk 0 sRun f0 f0
    (by rw [fpsTick_cap]; rfl)).2 (by decide) rfl
  exact ⟨by decide, h1, by decide, h2⟩

end Yolo
